import Mathlib

/-!
Verification of the per-endpoint client wrapper methods of
`third-party-api-clients` (sendgrid `teammates`, docusign `folders` and
`request_logs`, gusto `pay_schedules`, zoom `sip_phone`) against the
repository's specification.

The embedding models, from the source files:
  * the query-argument collection of every wrapper method (the sequences of
    `if` pushes), the `&`-join loop, and the full URL `format!` strings;
  * the body-serialization handling (`serde_json::to_vec(body).unwrap()`
    versus `serde_json::to_vec(body)?`);
  * the parameter-list and free-variable facts of the defective generated
    methods (duplicate `phone_id` parameters, undeclared `company_id`).

The shared `Client` (in particular `get_all_pages`) and
`progenitor_support::encode_path` live outside the provided source files;
they are modelled from the specification where noted.
-/

/-- Uppercase hexadecimal digit for a value below 16. -/
def hexDigit (n : Nat) : Char :=
  if n < 10 then Char.ofNat (48 + n) else Char.ofNat (55 + n)

/-- Two-digit uppercase hexadecimal rendering of a byte value. -/
def hexByte (n : Nat) : String :=
  String.mk [hexDigit (n / 16 % 16), hexDigit (n % 16)]

/-- UTF-8 byte sequence of a character, as natural numbers. -/
def utf8Bytes (c : Char) : List Nat :=
  let n := c.toNat
  if n < 128 then [n]
  else if n < 2048 then [192 + n / 64, 128 + n % 64]
  else if n < 65536 then [224 + n / 4096, 128 + n / 64 % 64, 128 + n % 64]
  else [240 + n / 262144, 128 + n / 4096 % 64, 128 + n / 64 % 64, 128 + n % 64]

/-- Byte membership in the path percent-encoding set used by
`progenitor_support::encode_path`: the C0 controls and DEL, space, double
quote, hash, less-than, greater-than, question mark, backquote, the two
curly brackets, and every non-ASCII byte. -/
def pathSetByte (b : Nat) : Bool :=
  b < 32 || b == 127 || b == 32 || b == 34 || b == 35 || b == 60 || b == 62 ||
    b == 63 || b == 96 || b == 123 || b == 125 || 128 ≤ b

/-- Modelled from the spec: `crate::progenitor_support::encode_path` is part
of this repository but not among the provided source files; the spec's data
model has every path parameter interpolated into the path template after
encoding. Modelled as UTF-8 percent-encoding over `pathSetByte`. -/
def encode_path (s : String) : String :=
  String.join (s.data.map (fun c =>
    String.join ((utf8Bytes c).map (fun b =>
      if pathSetByte b then "%" ++ hexByte b else String.mk [Char.ofNat b]))))

/-- One byte of `application/x-www-form-urlencoded` output: space becomes a
plus sign, ASCII alphanumerics and asterisk, hyphen, dot, underscore pass
through, everything else is percent-encoded. -/
def formByte (b : Nat) : String :=
  if b == 32 then "+"
  else if (48 ≤ b && b ≤ 57) || (65 ≤ b && b ≤ 90) || (97 ≤ b && b ≤ 122) ||
      b == 42 || b == 45 || b == 46 || b == 95 then String.mk [Char.ofNat b]
  else "%" ++ hexByte b

/-- `application/x-www-form-urlencoded` encoding of one string (the external
`serde_urlencoded` crate's treatment of a key or a value). -/
def formEncode (s : String) : String :=
  String.join (s.data.map (fun c => String.join ((utf8Bytes c).map formByte)))

/-- Join a list of strings with a single ampersand between consecutive
entries: the first entry bare, every later entry preceded by one `&`. -/
def joinAmp : List String → String
  | [] => ""
  | a :: rest => a ++ String.join (rest.map (fun n => "&" ++ n))

/-- The external `serde_urlencoded::to_string` on a vector of key-value
pairs: each pair rendered `key=value` with both sides form-encoded, pairs
joined by `&`. -/
def serde_urlencoded_to_string (args : List (String × String)) : String :=
  joinAmp (args.map (fun p => formEncode p.1 ++ "=" ++ formEncode p.2))

/-- The query-assembly loop that appears verbatim in the docusign and zoom
modules: iterate over the collected arguments with their index, pushing `&`
before every argument other than the first. -/
def ampJoinLoop (args : List String) : String :=
  (args.foldl
    (fun (acc : String × Nat) n =>
      (acc.1 ++ (if 0 < acc.2 then "&" else "") ++ n, acc.2 + 1))
    ("", 0)).1

/-- Rendering of one collected query argument, `format!("key={}", value)` in
the source. -/
def renderArg (p : String × String) : String := p.1 ++ "=" ++ p.2

/-- One page of a paginated collection: its items and the optional
continuation token. -/
structure Page (α : Type) where
  items : List α
  next_token : Option String
deriving DecidableEq, Repr

/-- The spec's error taxonomy for a single page fetch. -/
inductive FetchError where
  | transportError
  | decodeError
  | apiError
deriving DecidableEq, Repr

/-- Modelled from the spec: `Client::get_all_pages` is part of this
repository but not among the provided source files. Spec section 4.2: the
aggregator repeatedly invokes the Page Fetcher, appending each page's items
to an accumulator, until a call returns no continuation token; if any fetch
fails it aborts immediately with that page's error and the accumulated items
are discarded. The loop is driven here by the transcript of successive
fetch results; the empty-transcript case is unreachable on well-formed
inputs. -/
def fetch_all_loop {α : Type} (acc : List α) :
    List (Except FetchError (Page α)) → Except FetchError (List α)
  | [] => Except.ok acc
  | Except.error e :: _ => Except.error e
  | Except.ok p :: rest =>
    match p.next_token with
    | none => Except.ok (acc ++ p.items)
    | some _ => fetch_all_loop (acc ++ p.items) rest

/-- Modelled from the spec: the `fetch_all` / `get_all_pages` entry point,
starting the aggregation loop with an empty accumulator. -/
def get_all_pages {α : Type} (responses : List (Except FetchError (Page α))) :
    Except FetchError (List α) :=
  fetch_all_loop [] responses

/-- Number of fetch calls the aggregation loop performs on a transcript:
it consumes entries until the first error or the first page without a
continuation token. -/
def pages_fetched {α : Type} : List (Except FetchError (Page α)) → Nat
  | [] => 0
  | Except.error _ :: _ => 1
  | Except.ok p :: rest =>
    match p.next_token with
    | none => 1
    | some _ => 1 + pages_fetched rest

example : get_all_pages (α := Nat)
    [Except.ok ⟨[1, 2], some "t"⟩, Except.ok ⟨[3], none⟩] =
    Except.ok [1, 2, 3] := by rfl

example : pages_fetched (α := Nat)
    [Except.ok ⟨[], some "t"⟩, Except.ok ⟨[3], none⟩, Except.ok ⟨[9], none⟩] =
    2 := by rfl

example : encode_path "a b" = "a%20b" := by rfl

example : formEncode "a b" = "a+b" := by rfl

example : serde_urlencoded_to_string [("limit", "3"), ("offset", "4")] =
    "limit=3&offset=4" := by rfl

example : ampJoinLoop ["a=1", "b=2", "c=3"] = "a=1&b=2&c=3" := by rfl

/-! ### sendgrid `teammates.rs` -/

/-- Query arguments of `Teammates::get_v_3` (`limit: u64`, `offset: u64`):
each is pushed when its decimal rendering is non-empty. -/
def get_v_3_query_args (limit offset : Nat) : List (String × String) :=
  (if ¬(toString limit).isEmpty then [("limit", toString limit)] else []) ++
    (if ¬(toString offset).isEmpty then [("offset", toString offset)] else [])

/-- URL of `Teammates::get_v_3`: `format!("/teammates?{}", query_)` with the
query produced by `serde_urlencoded::to_string`. -/
def get_v_3_url (limit offset : Nat) : String :=
  "/teammates?" ++ serde_urlencoded_to_string (get_v_3_query_args limit offset)

/-- URL of `Teammates::post_v_3_pending_token_resend`. -/
def post_v_3_pending_token_resend_url (token : String) : String :=
  "/teammates/pending/" ++ encode_path token ++ "/resend"

/-- Query arguments of `Teammates::get_v_3_scopes_requests`
(`limit: i64`, `offset: i64`): each is pushed when strictly positive. -/
def get_v_3_scopes_requests_query_args (limit offset : Int) :
    List (String × String) :=
  (if limit > 0 then [("limit", toString limit)] else []) ++
    (if offset > 0 then [("offset", toString offset)] else [])

/-- URL of `Teammates::get_v_3_scopes_requests`. -/
def get_v_3_scopes_requests_url (limit offset : Int) : String :=
  "/scopes/requests?" ++
    serde_urlencoded_to_string (get_v_3_scopes_requests_query_args limit offset)

/-- URL of `Teammates::get_all_v_3_scopes_requests` (same construction as
`get_v_3_scopes_requests`; this method delegates to
`Client::get_all_pages`). -/
def get_all_v_3_scopes_requests_url (limit offset : Int) : String :=
  "/scopes/requests?" ++
    serde_urlencoded_to_string (get_v_3_scopes_requests_query_args limit offset)

/-- URL of `Teammates::get_v_3_username`. -/
def get_v_3_username_url (username : String) : String :=
  "/teammates/" ++ encode_path username

/-- URL of `Teammates::delete_v_3_username`. -/
def delete_v_3_username_url (username : String) : String :=
  "/teammates/" ++ encode_path username

/-- URL of `Teammates::patch_v_3_username`. -/
def patch_v_3_username_url (username : String) : String :=
  "/teammates/" ++ encode_path username

/-- URL of `Teammates::patch_v_3_scopes_requests_approve`. -/
def patch_v_3_scopes_requests_approve_url (request_id : String) : String :=
  "/scopes/requests/" ++ encode_path request_id ++ "/approve"

/-- URL of `Teammates::delete_v_3_scopes_requests_request`. -/
def delete_v_3_scopes_requests_request_url (request_id : String) : String :=
  "/scopes/requests/" ++ encode_path request_id

/-- URL of `Teammates::delete_v_3_pending_token`. -/
def delete_v_3_pending_token_url (token : String) : String :=
  "/teammates/pending/" ++ encode_path token

/-! ### docusign `folders.rs` -/

/-- Query arguments of `Folders::get`: five optional string parameters, each
pushed as `format!("name={}", value)` when non-empty, in the source's fixed
order `include`, `include_items`, `start_position`, `template`,
`user_filter`. Arguments are modelled as (name, value) pairs; `renderArg`
produces the formatted string the source pushes. -/
def folders_get_query_args
    (include_ include_items start_position template user_filter : String) :
    List (String × String) :=
  (if ¬include_.isEmpty then [("include", include_)] else []) ++
    (if ¬include_items.isEmpty then [("include_items", include_items)] else []) ++
    (if ¬start_position.isEmpty then [("start_position", start_position)] else []) ++
    (if ¬template.isEmpty then [("template", template)] else []) ++
    (if ¬user_filter.isEmpty then [("user_filter", user_filter)] else [])

/-- Query string of `Folders::get`: the collected arguments joined by the
indexed `&`-pushing loop. -/
def folders_get_query
    (include_ include_items start_position template user_filter : String) :
    String :=
  ampJoinLoop ((folders_get_query_args include_ include_items start_position
    template user_filter).map renderArg)

/-- URL of `Folders::get`:
`format!("/v2.1/accounts/{}/folders?{}", encode_path(account_id), query_)`. -/
def folders_get_url
    (account_id include_ include_items start_position template user_filter :
      String) : String :=
  "/v2.1/accounts/" ++ encode_path account_id ++ "/folders?" ++
    folders_get_query include_ include_items start_position template user_filter

/-- Query arguments of `Folders::get_folder_items`: eight optional string
parameters in the source's fixed order. -/
def get_folder_items_query_args
    (from_date include_items owner_email owner_name search_text start_position
      status to_date : String) : List (String × String) :=
  (if ¬from_date.isEmpty then [("from_date", from_date)] else []) ++
    (if ¬include_items.isEmpty then [("include_items", include_items)] else []) ++
    (if ¬owner_email.isEmpty then [("owner_email", owner_email)] else []) ++
    (if ¬owner_name.isEmpty then [("owner_name", owner_name)] else []) ++
    (if ¬search_text.isEmpty then [("search_text", search_text)] else []) ++
    (if ¬start_position.isEmpty then [("start_position", start_position)] else []) ++
    (if ¬status.isEmpty then [("status", status)] else []) ++
    (if ¬to_date.isEmpty then [("to_date", to_date)] else [])

/-- URL of `Folders::get_folder_items`. -/
def get_folder_items_url
    (account_id folder_id from_date include_items owner_email owner_name
      search_text start_position status to_date : String) : String :=
  "/v2.1/accounts/" ++ encode_path account_id ++ "/folders/" ++
    encode_path folder_id ++ "?" ++
    ampJoinLoop ((get_folder_items_query_args from_date include_items
      owner_email owner_name search_text start_position status to_date).map
      renderArg)

/-- URL of `Folders::put_folder_by`. -/
def put_folder_by_url (account_id folder_id : String) : String :=
  "/v2.1/accounts/" ++ encode_path account_id ++ "/folders/" ++
    encode_path folder_id

/-- Query arguments of `Folders::search_get_folder_contents`: eight optional
string parameters in the source's fixed order. -/
def search_get_folder_contents_query_args
    (all count from_date include_recipients order order_by start_position
      to_date : String) : List (String × String) :=
  (if ¬all.isEmpty then [("all", all)] else []) ++
    (if ¬count.isEmpty then [("count", count)] else []) ++
    (if ¬from_date.isEmpty then [("from_date", from_date)] else []) ++
    (if ¬include_recipients.isEmpty then
      [("include_recipients", include_recipients)] else []) ++
    (if ¬order.isEmpty then [("order", order)] else []) ++
    (if ¬order_by.isEmpty then [("order_by", order_by)] else []) ++
    (if ¬start_position.isEmpty then [("start_position", start_position)] else []) ++
    (if ¬to_date.isEmpty then [("to_date", to_date)] else [])

/-- URL of `Folders::search_get_folder_contents`. -/
def search_get_folder_contents_url
    (account_id search_folder_id all count from_date include_recipients order
      order_by start_position to_date : String) : String :=
  "/v2.1/accounts/" ++ encode_path account_id ++ "/search_folders/" ++
    encode_path search_folder_id ++ "?" ++
    ampJoinLoop ((search_get_folder_contents_query_args all count from_date
      include_recipients order order_by start_position to_date).map renderArg)

/-! ### docusign `request_logs.rs` -/

/-- Query arguments of `RequestLogs::api_request_log_get_log`: the single
optional string parameter `encoding`. -/
def api_request_log_get_log_query_args (encoding : String) :
    List (String × String) :=
  if ¬encoding.isEmpty then [("encoding", encoding)] else []

/-- URL of `RequestLogs::api_request_log_get_log`. -/
def api_request_log_get_log_url (encoding : String) : String :=
  "/v2.1/diagnostics/request_logs?" ++
    ampJoinLoop ((api_request_log_get_log_query_args encoding).map renderArg)

/-- URL of `RequestLogs::api_request_log_get`. -/
def api_request_log_get_url (request_log_id : String) : String :=
  "/v2.1/diagnostics/request_logs/" ++ encode_path request_log_id

/-- URL of `RequestLogs::api_request_log_get_request_logs` (same
construction; this method delegates to `Client::get_all_pages`). -/
def api_request_log_get_request_logs_url (request_log_id : String) : String :=
  "/v2.1/diagnostics/request_logs/" ++ encode_path request_log_id

/-! ### zoom `sip_phone.rs` -/

/-- Query arguments of `SipPhone::list_sip_phones`, in the source's fixed
order: `next_page_token` (pushed when non-empty), `page_number` (pushed when
strictly positive), `page_size` (pushed when strictly positive),
`search_key` (pushed when non-empty). -/
def list_sip_phones_query_args
    (page_number : Int) (search_key : String) (page_size : Int)
    (next_page_token : String) : List (String × String) :=
  (if ¬next_page_token.isEmpty then [("next_page_token", next_page_token)]
    else []) ++
    (if page_number > 0 then [("page_number", toString page_number)] else []) ++
    (if page_size > 0 then [("page_size", toString page_size)] else []) ++
    (if ¬search_key.isEmpty then [("search_key", search_key)] else [])

/-- URL of `SipPhone::list_sip_phones`: `format!("/sip_phones?{}", query)`. -/
def list_sip_phones_url
    (page_number : Int) (search_key : String) (page_size : Int)
    (next_page_token : String) : String :=
  "/sip_phones?" ++
    ampJoinLoop ((list_sip_phones_query_args page_number search_key page_size
      next_page_token).map renderArg)

/-- Declared parameter names of `SipPhone::delete_sip_phone` (besides
`&self`): the source declares `phone_id: &str` twice. -/
def delete_sip_phone_params : List String := ["phone_id", "phone_id"]

/-- URL of `SipPhone::delete_sip_phone`. The source declares `phone_id`
twice; under shadowing the later binding is the one in scope, so the URL is
built from the second value only (`phone_id2` here stands for the second
declared `phone_id`). -/
def delete_sip_phone_url (phone_id phone_id2 : String) : String :=
  "/sip_phones/" ++ encode_path phone_id2

/-- Declared parameter names of `SipPhone::update_sip_phone` (besides
`&self`): `phone_id` twice, then `body`. -/
def update_sip_phone_params : List String := ["phone_id", "phone_id", "body"]

/-- URL of `SipPhone::update_sip_phone`; as in `delete_sip_phone_url`, the
second declared `phone_id` is the binding in scope. -/
def update_sip_phone_url (phone_id phone_id2 : String) : String :=
  "/sip_phones/" ++ encode_path phone_id2

/-! ### gusto `pay_schedules.rs` -/

/-- Declared parameter names of
`PaySchedules::get_v_1_companies_company_id_pay_schedules` (both the plain
and the `_all_pages` variant, which share this name in the source): the
method takes only `&self`. -/
def get_v_1_companies_company_id_pay_schedules_params : List String := []

/-- Variable names interpolated into the URL of
`PaySchedules::get_v_1_companies_company_id_pay_schedules`: `company_id` is
used without being declared anywhere. -/
def get_v_1_companies_company_id_pay_schedules_free_vars : List String :=
  ["company_id"]

/-- URL of `PaySchedules::get_v_1_companies_company_id_pay_schedules`. The
argument is the undeclared free variable `company_id` the source
interpolates, not a declared parameter of the method. -/
def get_v_1_companies_company_id_pay_schedules_url (company_id : String) :
    String :=
  "/v1/companies/" ++ encode_path company_id ++ "/pay_schedules"

/-- Declared parameter names of
`PaySchedules::get_v_1_companies_company_id_pay_schedules_pay_schedule_id`:
only `&self`. -/
def get_v_1_companies_company_id_pay_schedules_pay_schedule_id_params :
    List String := []

/-- Undeclared variable names interpolated into the URL of
`PaySchedules::get_v_1_companies_company_id_pay_schedules_pay_schedule_id`. -/
def get_v_1_companies_company_id_pay_schedules_pay_schedule_id_free_vars :
    List String := ["company_id_or_uuid", "pay_schedule_id_or_uuid"]

/-- URL of
`PaySchedules::get_v_1_companies_company_id_pay_schedules_pay_schedule_id`;
both arguments are undeclared free variables in the source. -/
def get_v_1_companies_company_id_pay_schedules_pay_schedule_id_url
    (company_id_or_uuid pay_schedule_id_or_uuid : String) : String :=
  "/v1/companies/" ++ encode_path company_id_or_uuid ++ "/pay_schedules/" ++
    encode_path pay_schedule_id_or_uuid

/-- Declared parameter names of
`PaySchedules::put_v_1_companies_company_id_pay_schedules_pay_schedule_id`:
only `&self` and `body`. -/
def put_v_1_companies_company_id_pay_schedules_pay_schedule_id_params :
    List String := ["body"]

/-- Undeclared variable names interpolated into the URL of
`PaySchedules::put_v_1_companies_company_id_pay_schedules_pay_schedule_id`. -/
def put_v_1_companies_company_id_pay_schedules_pay_schedule_id_free_vars :
    List String := ["company_id_or_uuid", "pay_schedule_id_or_uuid"]

/-- URL of
`PaySchedules::put_v_1_companies_company_id_pay_schedules_pay_schedule_id`;
both arguments are undeclared free variables in the source. -/
def put_v_1_companies_company_id_pay_schedules_pay_schedule_id_url
    (company_id_or_uuid pay_schedule_id_or_uuid : String) : String :=
  "/v1/companies/" ++ encode_path company_id_or_uuid ++ "/pay_schedules/" ++
    encode_path pay_schedule_id_or_uuid

/-! ### Body serialization handling -/

/-- Observable outcome of a body-sending wrapper method's serialization
step: the process panics (`unwrap` on an `Err`), the method returns the
serialization error (`?` on an `Err`), or the serialized bytes are handed to
the client. -/
inductive BodyOutcome (ε : Type) where
  | panicked : BodyOutcome ε
  | failed : ε → BodyOutcome ε
  | request : List Nat → BodyOutcome ε
deriving DecidableEq, Repr

/-- `Folders::put_folder_by` body handling:
`serde_json::to_vec(body).unwrap()`. -/
def put_folder_by_outcome {ε β : Type} (to_vec : β → Except ε (List Nat))
    (body : β) : BodyOutcome ε :=
  match to_vec body with
  | Except.error _ => BodyOutcome.panicked
  | Except.ok v => BodyOutcome.request v

/-- `RequestLogs::api_request_log_put_settings` body handling:
`serde_json::to_vec(body).unwrap()`. -/
def api_request_log_put_settings_outcome {ε β : Type}
    (to_vec : β → Except ε (List Nat)) (body : β) : BodyOutcome ε :=
  match to_vec body with
  | Except.error _ => BodyOutcome.panicked
  | Except.ok v => BodyOutcome.request v

/-- `SipPhone::create_sip_phone` body handling:
`serde_json::to_vec(body).unwrap()`. -/
def create_sip_phone_outcome {ε β : Type} (to_vec : β → Except ε (List Nat))
    (body : β) : BodyOutcome ε :=
  match to_vec body with
  | Except.error _ => BodyOutcome.panicked
  | Except.ok v => BodyOutcome.request v

/-- `SipPhone::update_sip_phone` body handling:
`serde_json::to_vec(body).unwrap()`. -/
def update_sip_phone_outcome {ε β : Type} (to_vec : β → Except ε (List Nat))
    (body : β) : BodyOutcome ε :=
  match to_vec body with
  | Except.error _ => BodyOutcome.panicked
  | Except.ok v => BodyOutcome.request v

/-- `Teammates::post_v_3_teammate` body handling:
`serde_json::to_vec(body)?` propagates the error through the `Result`. -/
def post_v_3_teammate_outcome {ε β : Type} (to_vec : β → Except ε (List Nat))
    (body : β) : BodyOutcome ε :=
  match to_vec body with
  | Except.error e => BodyOutcome.failed e
  | Except.ok v => BodyOutcome.request v

/-- `Teammates::patch_v_3_username` body handling:
`serde_json::to_vec(body)?` propagates the error through the `Result`. -/
def patch_v_3_username_outcome {ε β : Type} (to_vec : β → Except ε (List Nat))
    (body : β) : BodyOutcome ε :=
  match to_vec body with
  | Except.error e => BodyOutcome.failed e
  | Except.ok v => BodyOutcome.request v

example : folders_get_url "a" "i" "" "sp" "" "u" =
    "/v2.1/accounts/a/folders?include=i&start_position=sp&user_filter=u" := by
  rfl

example : list_sip_phones_url 2 "k" 0 "tok" =
    "/sip_phones?next_page_token=tok&page_number=2&search_key=k" := by rfl

example : get_v_3_url 0 7 = "/teammates?limit=0&offset=7" := by rfl

example : get_v_3_scopes_requests_url 0 7 = "/scopes/requests?offset=7" := by
  rfl

/-! ### Pagination lemmas -/

lemma fetch_all_loop_cons_some {α : Type} (acc : List α) (p : Page α)
    (t : String) (rest : List (Except FetchError (Page α)))
    (h : p.next_token = some t) :
    fetch_all_loop acc (Except.ok p :: rest) =
      fetch_all_loop (acc ++ p.items) rest := by
  simp [fetch_all_loop, h]

lemma fetch_all_loop_cons_none {α : Type} (acc : List α) (p : Page α)
    (rest : List (Except FetchError (Page α))) (h : p.next_token = none) :
    fetch_all_loop acc (Except.ok p :: rest) = Except.ok (acc ++ p.items) := by
  simp [fetch_all_loop, h]

lemma pages_fetched_cons_some {α : Type} (p : Page α) (t : String)
    (rest : List (Except FetchError (Page α))) (h : p.next_token = some t) :
    pages_fetched (Except.ok p :: rest) = 1 + pages_fetched rest := by
  simp [pages_fetched, h]

lemma pages_fetched_cons_none {α : Type} (p : Page α)
    (rest : List (Except FetchError (Page α))) (h : p.next_token = none) :
    pages_fetched (Except.ok p :: rest) = 1 := by
  simp [pages_fetched, h]

lemma fetch_all_loop_ok_complete {α : Type} :
    ∀ (pages : List (Page α)) (acc : List α)
      (junk : List (Except FetchError (Page α))) (hne : pages ≠ []),
      (∀ p ∈ pages.dropLast, p.next_token.isSome) →
      (pages.getLast hne).next_token = none →
      fetch_all_loop acc (pages.map Except.ok ++ junk) =
        Except.ok (acc ++ (pages.map Page.items).flatten)
  | [], _, _, hne, _, _ => absurd rfl hne
  | [a], acc, junk, _, _, hlast => by
    have ha : a.next_token = none := hlast
    rw [List.map_cons, List.map_nil, List.singleton_append,
      fetch_all_loop_cons_none acc a junk ha]
    simp
  | a :: b :: rest, acc, junk, _, htok, hlast => by
    have ha : a.next_token.isSome := by
      apply htok
      simp [List.dropLast]
    obtain ⟨t, ht⟩ := Option.isSome_iff_exists.mp ha
    have hne' : b :: rest ≠ [] := List.cons_ne_nil _ _
    have htok' : ∀ p ∈ (b :: rest).dropLast, p.next_token.isSome := by
      intro p hp
      apply htok
      simp [List.dropLast]
      right
      simpa [List.dropLast] using hp
    have hlast' : ((b :: rest).getLast hne').next_token = none := by
      rw [← List.getLast_cons (a := a) hne']
      exact hlast
    have ih := fetch_all_loop_ok_complete (b :: rest) (acc ++ a.items) junk
      hne' htok' hlast'
    rw [List.map_cons, List.cons_append,
      fetch_all_loop_cons_some acc a t _ ht, ih]
    simp

lemma pages_fetched_complete {α : Type} :
    ∀ (pages : List (Page α))
      (junk : List (Except FetchError (Page α))) (hne : pages ≠ []),
      (∀ p ∈ pages.dropLast, p.next_token.isSome) →
      (pages.getLast hne).next_token = none →
      pages_fetched (pages.map Except.ok ++ junk) = pages.length
  | [], _, hne, _, _ => absurd rfl hne
  | [a], junk, _, _, hlast => by
    have ha : a.next_token = none := hlast
    rw [List.map_cons, List.map_nil, List.singleton_append,
      pages_fetched_cons_none a junk ha]
    rfl
  | a :: b :: rest, junk, _, htok, hlast => by
    have ha : a.next_token.isSome := by
      apply htok
      simp [List.dropLast]
    obtain ⟨t, ht⟩ := Option.isSome_iff_exists.mp ha
    have hne' : b :: rest ≠ [] := List.cons_ne_nil _ _
    have htok' : ∀ p ∈ (b :: rest).dropLast, p.next_token.isSome := by
      intro p hp
      apply htok
      simp [List.dropLast]
      right
      simpa [List.dropLast] using hp
    have hlast' : ((b :: rest).getLast hne').next_token = none := by
      rw [← List.getLast_cons (a := a) hne']
      exact hlast
    have ih := pages_fetched_complete (b :: rest) junk hne' htok' hlast'
    rw [List.map_cons, List.cons_append, pages_fetched_cons_some a t _ ht, ih]
    simp [Nat.add_comm]

lemma fetch_all_loop_error {α : Type} :
    ∀ (pre : List (Page α)) (acc : List α) (e : FetchError)
      (junk : List (Except FetchError (Page α))),
      (∀ p ∈ pre, p.next_token.isSome) →
      fetch_all_loop acc (pre.map Except.ok ++ Except.error e :: junk) =
        Except.error e
  | [], acc, e, junk, _ => by simp [fetch_all_loop]
  | a :: rest, acc, e, junk, hp => by
    have ha : a.next_token.isSome := hp a (by simp)
    obtain ⟨t, ht⟩ := Option.isSome_iff_exists.mp ha
    have ih := fetch_all_loop_error rest (acc ++ a.items) e junk
      (fun p hmem => hp p (by simp [hmem]))
    rw [List.map_cons, List.cons_append, fetch_all_loop_cons_some acc a t _ ht]
    exact ih

/-- C1: for every sequence of N pages, each page except the last carrying a
continuation token, the all-pages operation returns exactly the pages' items
concatenated in page-arrival order with intra-page order preserved; the loop
performs exactly N fetches and terminates on the absence of the token (any
further transcript entries are never consumed, so there is no fixed maximum
page count and no empty-page heuristic); when every page holds K items the
result has N times K items. -/
theorem c1_fetch_all_complete {α : Type} (pages : List (Page α)) (K : Nat)
    (junk : List (Except FetchError (Page α))) (hne : pages ≠ [])
    (htok : ∀ p ∈ pages.dropLast, p.next_token.isSome)
    (hlast : (pages.getLast hne).next_token = none) :
    get_all_pages (pages.map Except.ok ++ junk) =
      Except.ok ((pages.map Page.items).flatten) ∧
    pages_fetched (pages.map Except.ok ++ junk) = pages.length ∧
    ((∀ p ∈ pages, p.items.length = K) →
      ((pages.map Page.items).flatten).length = pages.length * K) := by
  refine ⟨?_, ?_, ?_⟩
  · have h := fetch_all_loop_ok_complete pages [] junk hne htok hlast
    simpa [get_all_pages] using h
  · exact pages_fetched_complete pages junk hne htok hlast
  · intro hK
    rw [List.length_flatten]
    have hmap : (pages.map Page.items).map List.length = pages.map fun _ => K := by
      rw [List.map_map]
      apply List.map_congr_left
      intro p hp
      exact hK p hp
    rw [hmap]
    simp [Nat.mul_comm]

/-- Witness for C1: three pages of two items each, followed by transcript
junk that is never consumed; the aggregator returns the six items in order
and performs exactly three fetches. -/
theorem c1_fetch_all_complete_witness :
    get_all_pages
        (([⟨[1, 2], some "a"⟩, ⟨[3, 4], some "b"⟩, ⟨[5, 6], none⟩] :
            List (Page Nat)).map Except.ok ++
          [Except.error FetchError.transportError]) =
      Except.ok [1, 2, 3, 4, 5, 6] ∧
    pages_fetched
        (([⟨[1, 2], some "a"⟩, ⟨[3, 4], some "b"⟩, ⟨[5, 6], none⟩] :
            List (Page Nat)).map Except.ok ++
          [Except.error FetchError.transportError]) = 3 := by
  have h := c1_fetch_all_complete
    ([⟨[1, 2], some "a"⟩, ⟨[3, 4], some "b"⟩, ⟨[5, 6], none⟩] :
      List (Page Nat)) 2
    [Except.error FetchError.transportError]
    (by decide) (by decide) (by decide)
  exact ⟨h.1.trans (by rfl), h.2.1.trans (by rfl)⟩

/-- C2: if the fetch of some page fails, after earlier pages that all carry
continuation tokens, the all-pages operation surfaces exactly that page's
error; no accumulated items from the earlier pages are returned and no
default value is substituted. -/
theorem c2_fetch_all_error {α : Type} (pre : List (Page α)) (e : FetchError)
    (junk : List (Except FetchError (Page α)))
    (hp : ∀ p ∈ pre, p.next_token.isSome) :
    get_all_pages (pre.map Except.ok ++ Except.error e :: junk) =
      Except.error e ∧
    ∀ items : List α,
      get_all_pages (pre.map Except.ok ++ Except.error e :: junk) ≠
        Except.ok items := by
  have h := fetch_all_loop_error pre [] e junk hp
  refine ⟨h, ?_⟩
  intro items hok
  rw [show get_all_pages (pre.map Except.ok ++ Except.error e :: junk) =
    fetch_all_loop [] (pre.map Except.ok ++ Except.error e :: junk) from rfl,
    h] at hok
  exact Except.noConfusion hok

/-- Witness for C2: page 3 of an intended 5-page sequence fails with an API
error; the aggregator returns that error, and the items of pages 1 and 2 are
not surfaced. -/
theorem c2_fetch_all_error_witness :
    get_all_pages
        (([⟨[1, 2], some "a"⟩, ⟨[3, 4], some "b"⟩] : List (Page Nat)).map
            Except.ok ++
          Except.error FetchError.apiError ::
            [Except.ok ⟨[7, 8], some "d"⟩, Except.ok ⟨[9, 10], none⟩]) =
      Except.error FetchError.apiError ∧
    get_all_pages
        (([⟨[1, 2], some "a"⟩, ⟨[3, 4], some "b"⟩] : List (Page Nat)).map
            Except.ok ++
          Except.error FetchError.apiError ::
            [Except.ok ⟨[7, 8], some "d"⟩, Except.ok ⟨[9, 10], none⟩]) ≠
      Except.ok [1, 2, 3, 4] := by
  have h := c2_fetch_all_error
    ([⟨[1, 2], some "a"⟩, ⟨[3, 4], some "b"⟩] : List (Page Nat))
    FetchError.apiError
    [Except.ok ⟨[7, 8], some "d"⟩, Except.ok ⟨[9, 10], none⟩]
    (by decide)
  exact ⟨h.1, h.2 [1, 2, 3, 4]⟩

/-- C3: a single page carrying no continuation token yields exactly that
page's items after exactly one fetch call — no second transcript entry is
ever consumed — and an empty first page with no token yields the empty
sequence, not an error. -/
theorem c3_fetch_all_single_page {α : Type} (p : Page α)
    (junk : List (Except FetchError (Page α)))
    (h : p.next_token = none) :
    get_all_pages (Except.ok p :: junk) = Except.ok p.items ∧
    pages_fetched (Except.ok p :: junk) = 1 ∧
    (p.items = [] →
      get_all_pages (Except.ok p :: junk) = Except.ok ([] : List α)) := by
  refine ⟨?_, pages_fetched_cons_none p junk h, ?_⟩
  · rw [show get_all_pages (Except.ok p :: junk) =
      fetch_all_loop [] (Except.ok p :: junk) from rfl,
      fetch_all_loop_cons_none [] p junk h]
    simp
  · intro hempty
    rw [show get_all_pages (Except.ok p :: junk) =
      fetch_all_loop [] (Except.ok p :: junk) from rfl,
      fetch_all_loop_cons_none [] p junk h, hempty]
    simp

/-- Witness for C3: an empty single page with no token, followed by a junk
transcript entry that is never consumed, yields the empty sequence after one
fetch. -/
theorem c3_fetch_all_single_page_witness :
    get_all_pages
        (Except.ok (⟨[], none⟩ : Page Nat) ::
          [Except.error FetchError.decodeError]) = Except.ok ([] : List Nat) ∧
    pages_fetched
        (Except.ok (⟨[], none⟩ : Page Nat) ::
          [Except.error FetchError.decodeError]) = 1 := by
  have h := c3_fetch_all_single_page (⟨[], none⟩ : Page Nat)
    [Except.error FetchError.decodeError] (by decide)
  exact ⟨h.2.2 (by rfl), h.2.1⟩

/-- C7: `delete_sip_phone` and `update_sip_phone` each declare the path
parameter `phone_id` twice, yet their URL depends on only one `phone_id`
value (the binding in scope); the `pay_schedules` methods declare none of
the variables they interpolate (`company_id`, `company_id_or_uuid`,
`pay_schedule_id_or_uuid` are free), so their URLs are determined by no
declared input while still varying with the undeclared variable. -/
theorem c7_generated_defects :
    delete_sip_phone_params.count "phone_id" = 2 ∧
    update_sip_phone_params.count "phone_id" = 2 ∧
    (∀ a b c : String, delete_sip_phone_url a c = delete_sip_phone_url b c) ∧
    (∀ a b c : String, update_sip_phone_url a c = update_sip_phone_url b c) ∧
    get_v_1_companies_company_id_pay_schedules_params = [] ∧
    get_v_1_companies_company_id_pay_schedules_pay_schedule_id_params = [] ∧
    (∀ v ∈ get_v_1_companies_company_id_pay_schedules_free_vars,
      v ∉ get_v_1_companies_company_id_pay_schedules_params) ∧
    (∀ v ∈ get_v_1_companies_company_id_pay_schedules_pay_schedule_id_free_vars,
      v ∉ get_v_1_companies_company_id_pay_schedules_pay_schedule_id_params) ∧
    (∀ v ∈ put_v_1_companies_company_id_pay_schedules_pay_schedule_id_free_vars,
      v ∉ put_v_1_companies_company_id_pay_schedules_pay_schedule_id_params) ∧
    (∃ c₁ c₂ : String, get_v_1_companies_company_id_pay_schedules_url c₁ ≠
      get_v_1_companies_company_id_pay_schedules_url c₂) := by
  refine ⟨by decide, by decide, fun a b c => rfl, fun a b c => rfl, rfl, rfl,
    by decide, by decide, by decide, "a", "b", by decide⟩

/-- C8: when JSON serialization of the body fails, the methods that call
`serde_json::to_vec(body).unwrap()` (`put_folder_by`,
`api_request_log_put_settings`, `create_sip_phone`, `update_sip_phone`)
panic, whereas `post_v_3_teammate` and `patch_v_3_username` propagate the
serialization error as an `Err` via `?`. -/
theorem c8_body_serialization_failure {ε β : Type}
    (to_vec : β → Except ε (List Nat)) (body : β) (e : ε)
    (h : to_vec body = Except.error e) :
    put_folder_by_outcome to_vec body = BodyOutcome.panicked ∧
    api_request_log_put_settings_outcome to_vec body = BodyOutcome.panicked ∧
    create_sip_phone_outcome to_vec body = BodyOutcome.panicked ∧
    update_sip_phone_outcome to_vec body = BodyOutcome.panicked ∧
    post_v_3_teammate_outcome to_vec body = BodyOutcome.failed e ∧
    patch_v_3_username_outcome to_vec body = BodyOutcome.failed e := by
  refine ⟨?_, ?_, ?_, ?_, ?_, ?_⟩ <;>
    simp [put_folder_by_outcome, api_request_log_put_settings_outcome,
      create_sip_phone_outcome, update_sip_phone_outcome,
      post_v_3_teammate_outcome, patch_v_3_username_outcome, h]

/-- Witness for C8: a serializer that always fails with error 7 makes
`put_folder_by` panic and `post_v_3_teammate` return that error. -/
theorem c8_body_serialization_failure_witness :
    put_folder_by_outcome
        (fun _ : Unit => (Except.error 7 : Except Nat (List Nat))) () =
      BodyOutcome.panicked ∧
    post_v_3_teammate_outcome
        (fun _ : Unit => (Except.error 7 : Except Nat (List Nat))) () =
      BodyOutcome.failed 7 := by
  have h := c8_body_serialization_failure
    (fun _ : Unit => (Except.error 7 : Except Nat (List Nat))) () 7 rfl
  exact ⟨h.1, h.2.2.2.2.1⟩

/-- C6: continuation-token injection and URL construction are purely
functional: two calls of `list_sip_phones` (which embeds `next_page_token`
into the query) or of `Folders::get` with identical argument values always
construct the identical URL. -/
theorem c6_url_construction_functional :
    (∀ (pn pn' : Int) (sk sk' : String) (ps ps' : Int) (npt npt' : String),
      pn = pn' → sk = sk' → ps = ps' → npt = npt' →
      list_sip_phones_url pn sk ps npt = list_sip_phones_url pn' sk' ps' npt') ∧
    (∀ a a' i i' ii ii' sp sp' t t' uf uf' : String,
      a = a' → i = i' → ii = ii' → sp = sp' → t = t' → uf = uf' →
      folders_get_url a i ii sp t uf = folders_get_url a' i' ii' sp' t' uf') := by
  constructor
  · intro pn pn' sk sk' ps ps' npt npt' h1 h2 h3 h4
    rw [h1, h2, h3, h4]
  · intro a a' i i' ii ii' sp sp' t t' uf uf' h1 h2 h3 h4 h5 h6
    rw [h1, h2, h3, h4, h5, h6]

/-- Witness for C6: applied to one concrete pair of identical calls. -/
theorem c6_url_construction_functional_witness :
    list_sip_phones_url 1 "k" 2 "tok" = list_sip_phones_url 1 "k" 2 "tok" ∧
    folders_get_url "acc" "i" "" "sp" "" "" =
      folders_get_url "acc" "i" "" "sp" "" "" := by
  exact ⟨c6_url_construction_functional.1 1 1 "k" "k" 2 2 "tok" "tok"
      rfl rfl rfl rfl,
    c6_url_construction_functional.2 "acc" "acc" "i" "i" "" "" "sp" "sp"
      "" "" "" "" rfl rfl rfl rfl rfl rfl⟩

/-- C9: the `?` separator is always appended to the endpoint path, and when
every optional query parameter is excluded the constructed URL is the
endpoint path followed by a trailing `?` and an empty query string, for
`Folders::get`, `Teammates::get_v_3_scopes_requests`,
`SipPhone::list_sip_phones`, `RequestLogs::api_request_log_get_log` and
`Teammates::get_v_3`. -/
theorem c9_trailing_question_mark :
    (∀ a i ii sp t uf : String, folders_get_url a i ii sp t uf =
      "/v2.1/accounts/" ++ encode_path a ++ "/folders?" ++
        folders_get_query i ii sp t uf) ∧
    (∀ limit offset : Nat, get_v_3_url limit offset = "/teammates?" ++
      serde_urlencoded_to_string (get_v_3_query_args limit offset)) ∧
    (∀ account_id : String, folders_get_url account_id "" "" "" "" "" =
      "/v2.1/accounts/" ++ encode_path account_id ++ "/folders?") ∧
    (∀ limit offset : Int, limit ≤ 0 → offset ≤ 0 →
      get_v_3_scopes_requests_url limit offset = "/scopes/requests?") ∧
    (∀ page_number page_size : Int, page_number ≤ 0 → page_size ≤ 0 →
      list_sip_phones_url page_number "" page_size "" = "/sip_phones?") ∧
    api_request_log_get_log_url "" = "/v2.1/diagnostics/request_logs?" := by
  refine ⟨fun a i ii sp t uf => rfl, fun limit offset => rfl, ?_, ?_, ?_, rfl⟩
  · intro a
    simp [folders_get_url,
      show folders_get_query "" "" "" "" "" = "" from rfl, String.append_empty]
  · intro l o hl ho
    have h1 : ¬(l > 0) := by omega
    have h2 : ¬(o > 0) := by omega
    simp [get_v_3_scopes_requests_url, get_v_3_scopes_requests_query_args,
      h1, h2, serde_urlencoded_to_string, joinAmp, String.append_empty]
  · intro pn ps hpn hps
    have h1 : ¬(pn > 0) := by omega
    have h2 : ¬(ps > 0) := by omega
    simp [list_sip_phones_url, list_sip_phones_query_args, h1, h2,
      ampJoinLoop, String.append_empty,
      show ("" : String).isEmpty = true from rfl]

/-- Witness for C9: concrete all-excluded calls of the three methods with
genuinely excludable parameters. -/
theorem c9_trailing_question_mark_witness :
    folders_get_url "acc" "" "" "" "" "" = "/v2.1/accounts/acc/folders?" ∧
    get_v_3_scopes_requests_url 0 (-1) = "/scopes/requests?" ∧
    list_sip_phones_url 0 "" (-2) "" = "/sip_phones?" := by
  refine ⟨(c9_trailing_question_mark.2.2.1 "acc").trans (by rfl),
    c9_trailing_question_mark.2.2.2.1 0 (-1) (by omega) (by omega),
    c9_trailing_question_mark.2.2.2.2.1 0 (-2) (by omega) (by omega)⟩

/-! ### Query-join lemmas -/

lemma str_join_cons (a : String) (l : List String) :
    String.join (a :: l) = a ++ String.join l := by
  apply String.ext
  simp

lemma ampJoinLoop_go :
    ∀ (args : List String) (s : String) (k : Nat),
      (args.foldl
        (fun (acc : String × Nat) n =>
          (acc.1 ++ (if 0 < acc.2 then "&" else "") ++ n, acc.2 + 1))
        (s, k + 1)).1 =
      s ++ String.join (args.map (fun n => "&" ++ n))
  | [], s, k => by
    simp [show String.join [] = "" from rfl, String.append_empty]
  | a :: rest, s, k => by
    rw [List.foldl_cons, if_pos (Nat.succ_pos k)]
    have ih := ampJoinLoop_go rest (s ++ "&" ++ a) (k + 1)
    rw [ih, List.map_cons, str_join_cons]
    simp [String.append_assoc]

lemma ampJoinLoop_eq_joinAmp (args : List String) :
    ampJoinLoop args = joinAmp args := by
  cases args with
  | nil => rfl
  | cons a rest =>
    unfold ampJoinLoop
    rw [List.foldl_cons]
    have h0 : ¬(0 : Nat) < 0 := by omega
    rw [if_neg h0, String.append_empty, String.empty_append]
    have := ampJoinLoop_go rest a 0
    simpa [joinAmp] using this

/-- C5: for the String-concatenation query builders (`Folders::get`,
`SipPhone::list_sip_phones`) the constructed query string is the included
`name=value` pairs joined with a single `&` between consecutive pairs, no
leading or trailing separator, and the parameter names occur in one fixed
order (a sublist of the full declaration order) that does not depend on
which parameters are included. -/
theorem c5_query_join_fixed_order :
    (∀ i ii sp t uf : String,
      folders_get_query i ii sp t uf =
        joinAmp ((folders_get_query_args i ii sp t uf).map renderArg) ∧
      ((folders_get_query_args i ii sp t uf).map Prod.fst).Sublist
        ["include", "include_items", "start_position", "template",
          "user_filter"]) ∧
    (∀ (pn : Int) (sk : String) (ps : Int) (npt : String),
      ampJoinLoop ((list_sip_phones_query_args pn sk ps npt).map renderArg) =
        joinAmp ((list_sip_phones_query_args pn sk ps npt).map renderArg) ∧
      ((list_sip_phones_query_args pn sk ps npt).map Prod.fst).Sublist
        ["next_page_token", "page_number", "page_size", "search_key"]) := by
  constructor
  · intro i ii sp t uf
    refine ⟨ampJoinLoop_eq_joinAmp _, ?_⟩
    unfold folders_get_query_args
    split_ifs <;> (simp_all; try decide)
  · intro pn sk ps npt
    refine ⟨ampJoinLoop_eq_joinAmp _, ?_⟩
    unfold list_sip_phones_query_args
    split_ifs <;> (simp_all; try decide)

/-- C4 counterexample: at `limit = 0, offset = 1` in
`get_v_3_scopes_requests`, the decimal rendering of the numeric value 0 is
the non-empty string "0", yet no `limit` parameter appears among the
constructed query arguments — the source includes an `i64` parameter only
when it is strictly positive, not when its rendering is non-empty. -/
theorem c4_counterexample_limit_zero :
    toString (0 : Int) ≠ "" ∧
    ¬(∃ v, ("limit", v) ∈ get_v_3_scopes_requests_query_args 0 1) := by
  constructor
  · decide
  · rintro ⟨v, hv⟩
    simp [get_v_3_scopes_requests_query_args] at hv

/-- C4 (amended): a string-valued optional query parameter appears in the
constructed query arguments iff its value is non-empty; the `i64`-valued
parameters of `get_v_3_scopes_requests` and `list_sip_phones` appear iff
strictly positive; the `u64`-valued parameters of `get_v_3` appear iff
their decimal rendering is non-empty (as the claim stated). -/
theorem c4_amended_inclusion :
    (∀ i ii sp t uf : String,
      ((∃ v, ("include", v) ∈ folders_get_query_args i ii sp t uf) ↔
        i ≠ "") ∧
      ((∃ v, ("include_items", v) ∈ folders_get_query_args i ii sp t uf) ↔
        ii ≠ "") ∧
      ((∃ v, ("start_position", v) ∈ folders_get_query_args i ii sp t uf) ↔
        sp ≠ "") ∧
      ((∃ v, ("template", v) ∈ folders_get_query_args i ii sp t uf) ↔
        t ≠ "") ∧
      ((∃ v, ("user_filter", v) ∈ folders_get_query_args i ii sp t uf) ↔
        uf ≠ "")) ∧
    (∀ limit offset : Int,
      ((∃ v, ("limit", v) ∈ get_v_3_scopes_requests_query_args limit offset) ↔
        0 < limit) ∧
      ((∃ v, ("offset", v) ∈ get_v_3_scopes_requests_query_args limit offset) ↔
        0 < offset)) ∧
    (∀ (pn : Int) (sk : String) (ps : Int) (npt : String),
      ((∃ v, ("next_page_token", v) ∈
          list_sip_phones_query_args pn sk ps npt) ↔ npt ≠ "") ∧
      ((∃ v, ("page_number", v) ∈ list_sip_phones_query_args pn sk ps npt) ↔
        0 < pn) ∧
      ((∃ v, ("page_size", v) ∈ list_sip_phones_query_args pn sk ps npt) ↔
        0 < ps) ∧
      ((∃ v, ("search_key", v) ∈ list_sip_phones_query_args pn sk ps npt) ↔
        sk ≠ "")) ∧
    (∀ limit offset : Nat,
      ((∃ v, ("limit", v) ∈ get_v_3_query_args limit offset) ↔
        ¬(toString limit).isEmpty) ∧
      ((∃ v, ("offset", v) ∈ get_v_3_query_args limit offset) ↔
        ¬(toString offset).isEmpty)) := by
  refine ⟨?_, ?_, ?_, ?_⟩
  · intro i ii sp t uf
    unfold folders_get_query_args
    refine ⟨?_, ?_, ?_, ?_, ?_⟩ <;>
      (split_ifs <;> simp_all [String.isEmpty_iff])
  · intro limit offset
    unfold get_v_3_scopes_requests_query_args
    refine ⟨?_, ?_⟩ <;> (split_ifs <;> simp_all <;> omega)
  · intro pn sk ps npt
    unfold list_sip_phones_query_args
    refine ⟨?_, ?_, ?_, ?_⟩ <;>
      (split_ifs <;> simp_all [String.isEmpty_iff] <;> omega)
  · intro limit offset
    unfold get_v_3_query_args
    refine ⟨?_, ?_⟩ <;> (split_ifs <;> simp_all)

/-- C10: every path parameter interpolated into a URL passes through
`progenitor_support::encode_path`, in every method of every module; by
contrast, the String-concatenation query builders (folders, request_logs,
sip_phone) interpolate query values verbatim with no encoding, while the
teammates `serde_urlencoded`-based builder form-encodes query keys and
values. The closing clauses show the two encodings are not the identity, so
the verbatim interpolation is a genuine distinction. -/
theorem c10_encoding_discipline :
    (∀ v, post_v_3_pending_token_resend_url v =
      "/teammates/pending/" ++ encode_path v ++ "/resend") ∧
    (∀ v, get_v_3_username_url v = "/teammates/" ++ encode_path v) ∧
    (∀ v, delete_v_3_username_url v = "/teammates/" ++ encode_path v) ∧
    (∀ v, patch_v_3_username_url v = "/teammates/" ++ encode_path v) ∧
    (∀ v, patch_v_3_scopes_requests_approve_url v =
      "/scopes/requests/" ++ encode_path v ++ "/approve") ∧
    (∀ v, delete_v_3_scopes_requests_request_url v =
      "/scopes/requests/" ++ encode_path v) ∧
    (∀ v, delete_v_3_pending_token_url v =
      "/teammates/pending/" ++ encode_path v) ∧
    (∀ a i ii sp t uf, folders_get_url a i ii sp t uf =
      "/v2.1/accounts/" ++ encode_path a ++ "/folders?" ++
        folders_get_query i ii sp t uf) ∧
    (∀ a f fd iit oe ow st sp s td,
      get_folder_items_url a f fd iit oe ow st sp s td =
      "/v2.1/accounts/" ++ encode_path a ++ "/folders/" ++ encode_path f ++
        "?" ++ ampJoinLoop ((get_folder_items_query_args fd iit oe ow st sp s
          td).map renderArg)) ∧
    (∀ a f, put_folder_by_url a f =
      "/v2.1/accounts/" ++ encode_path a ++ "/folders/" ++ encode_path f) ∧
    (∀ a sf al c fd ir o ob sp td,
      search_get_folder_contents_url a sf al c fd ir o ob sp td =
      "/v2.1/accounts/" ++ encode_path a ++ "/search_folders/" ++
        encode_path sf ++ "?" ++
        ampJoinLoop ((search_get_folder_contents_query_args al c fd ir o ob
          sp td).map renderArg)) ∧
    (∀ v, api_request_log_get_url v =
      "/v2.1/diagnostics/request_logs/" ++ encode_path v) ∧
    (∀ v, api_request_log_get_request_logs_url v =
      "/v2.1/diagnostics/request_logs/" ++ encode_path v) ∧
    (∀ a b, delete_sip_phone_url a b = "/sip_phones/" ++ encode_path b) ∧
    (∀ a b, update_sip_phone_url a b = "/sip_phones/" ++ encode_path b) ∧
    (∀ v, get_v_1_companies_company_id_pay_schedules_url v =
      "/v1/companies/" ++ encode_path v ++ "/pay_schedules") ∧
    (∀ a b, get_v_1_companies_company_id_pay_schedules_pay_schedule_id_url
        a b =
      "/v1/companies/" ++ encode_path a ++ "/pay_schedules/" ++
        encode_path b) ∧
    (∀ a b, put_v_1_companies_company_id_pay_schedules_pay_schedule_id_url
        a b =
      "/v1/companies/" ++ encode_path a ++ "/pay_schedules/" ++
        encode_path b) ∧
    (∀ sk : String, sk ≠ "" →
      list_sip_phones_url 0 sk 0 "" = "/sip_phones?search_key=" ++ sk) ∧
    (∀ sp : String, sp ≠ "" → ∀ a,
      folders_get_url a "" "" sp "" "" =
        "/v2.1/accounts/" ++ encode_path a ++ "/folders?start_position=" ++
          sp) ∧
    (∀ e : String, e ≠ "" → api_request_log_get_log_url e =
      "/v2.1/diagnostics/request_logs?encoding=" ++ e) ∧
    (∀ limit offset : Int, get_v_3_scopes_requests_url limit offset =
      "/scopes/requests?" ++ serde_urlencoded_to_string
        (get_v_3_scopes_requests_query_args limit offset)) ∧
    serde_urlencoded_to_string [("a", "x y")] = "a=x+y" ∧
    encode_path " " = "%20" ∧
    formEncode " " = "+" := by
  refine ⟨fun v => rfl, fun v => rfl, fun v => rfl, fun v => rfl, fun v => rfl,
    fun v => rfl, fun v => rfl, fun a i ii sp t uf => rfl,
    fun a f fd iit oe ow st sp s td => rfl, fun a f => rfl,
    fun a sf al c fd ir o ob sp td => rfl, fun v => rfl, fun v => rfl,
    fun a b => rfl, fun a b => rfl, fun v => rfl, fun a b => rfl,
    fun a b => rfl, ?_, ?_, ?_, fun limit offset => rfl, rfl, rfl, rfl⟩
  · intro sk hsk
    have hsk' : sk.isEmpty = false := by
      cases h : sk.isEmpty
      · rfl
      · exact absurd ((String.isEmpty_iff _).mp h) hsk
    simp [list_sip_phones_url, list_sip_phones_query_args, hsk',
      show ("" : String).isEmpty = true from rfl,
      show ¬((0 : Int) > 0) by omega, ampJoinLoop, renderArg,
      String.empty_append, ← String.append_assoc]
  · intro sp hsp a
    have hsp' : sp.isEmpty = false := by
      cases h : sp.isEmpty
      · rfl
      · exact absurd ((String.isEmpty_iff _).mp h) hsp
    simp [folders_get_url, folders_get_query, folders_get_query_args, hsp',
      show ("" : String).isEmpty = true from rfl, ampJoinLoop, renderArg,
      String.empty_append, ← String.append_assoc]
    rw [String.append_assoc ("/v2.1/accounts/" ++ encode_path a) "/folders?"
      "start_position="]
    rfl
  · intro e he
    have he' : e.isEmpty = false := by
      cases h : e.isEmpty
      · rfl
      · exact absurd ((String.isEmpty_iff _).mp h) he
    simp [api_request_log_get_log_url, api_request_log_get_log_query_args,
      he', ampJoinLoop, renderArg, String.empty_append,
      ← String.append_assoc]

/-- Witness for C10: a value containing a space is percent-encoded in path
position but appears verbatim in the String-concatenation query builders. -/
theorem c10_encoding_discipline_witness :
    api_request_log_get_url "a b" = "/v2.1/diagnostics/request_logs/a%20b" ∧
    list_sip_phones_url 0 "a b" 0 "" = "/sip_phones?search_key=a b" ∧
    folders_get_url "x" "" "" "a b" "" "" =
      "/v2.1/accounts/x/folders?start_position=a b" ∧
    api_request_log_get_log_url "a b" =
      "/v2.1/diagnostics/request_logs?encoding=a b" := by
  obtain ⟨h1, h2, h3, h4, h5, h6, h7, h8, h9, h10, h11, h12, h13, h14, h15,
    h16, h17, h18, h19, h20, h21, h22, h23, h24, h25⟩ :=
    c10_encoding_discipline
  exact ⟨(h12 "a b").trans (by rfl), (h19 "a b" (by decide)).trans (by rfl),
    (h20 "a b" (by decide) "x").trans (by rfl),
    (h21 "a b" (by decide)).trans (by rfl)⟩
